import Mathlib

/-!
Shallow embedding of the AAC workflow graph engine of this repository:
`app/aac_graph/nodes.py` (the eight node functions) and
`app/aac_graph/routes.py` (the three router functions).

External effects — the redis reads, the LLM chat calls, `json.loads` — are
modelled as explicit inputs to each node function; everything else follows the
Python source line by line.  Machine integers do not occur; all Python ints
here are list lengths (`Nat`).
-/

/-- Decoded JSON values, as produced by a successful `json.loads` call.
Numbers are restricted to integers: no code path of this repository inspects a
numeric JSON payload, and fractional values would add nothing but noise. -/
inductive Json where
  | null : Json
  | bool : Bool → Json
  | num : Int → Json
  | str : String → Json
  | arr : List Json → Json
  | obj : List (String × Json) → Json

mutual

/-- Python `repr` of a decoded JSON value (used by `str` on containers).
String quoting is modelled with a plain single quote, the common case. -/
def pyRepr : Json → String
  | .null => "None"
  | .bool true => "True"
  | .bool false => "False"
  | .num n => toString n
  | .str s => "\x27" ++ s ++ "\x27"
  | .arr xs => "[" ++ pyReprArr xs ++ "]"
  | .obj kvs => "\x7b" ++ pyReprObj kvs ++ "\x7d"

/-- Comma-separated `repr`s of the elements of a decoded JSON array. -/
def pyReprArr : List Json → String
  | [] => ""
  | [x] => pyRepr x
  | x :: y :: rest => pyRepr x ++ ", " ++ pyReprArr (y :: rest)

/-- Comma-separated `repr`s of the entries of a decoded JSON object. -/
def pyReprObj : List (String × Json) → String
  | [] => ""
  | [(k, v)] => "\x27" ++ k ++ "\x27: " ++ pyRepr v
  | (k, v) :: p :: rest =>
      "\x27" ++ k ++ "\x27: " ++ pyRepr v ++ ", " ++ pyReprObj (p :: rest)

end

/-- Python `str()` applied to a decoded JSON value, as in
`[str(x) for x in data]` and `str(data.get("intent", ""))`:
`str` of a decoded string is the string itself, everything else prints as its
`repr`. -/
def pyStr : Json → String
  | .str s => s
  | j => pyRepr j

/-- Python `repr` of a list of strings, as produced when an f-string
interpolates `phrases` into a prompt. -/
def pyListRepr (xs : List String) : String :=
  "[" ++ String.intercalate ", " (xs.map (fun s => "\x27" ++ s ++ "\x27")) ++ "]"

/-- One value stored in a `debug_trace` record. -/
inductive TraceVal where
  | s : String → TraceVal
  | n : Nat → TraceVal
  | b : Bool → TraceVal
  | ls : List String → TraceVal
  | os : Option String → TraceVal

/-- One record of `debug_trace`: the Python dict `{"step": step, **info}`,
with `info` kept as the ordered list of its remaining key/value pairs. -/
structure TraceEntry where
  step : String
  info : List (String × TraceVal)

/-- `GraphState` (declared in `app/aac_graph/state.py`, fields as the spec's
§3 data model and their uses in `nodes.py` / `routes.py`).  Python reads every
key through `.get` with a constant default (`""`, `[]`, falsy `None`), so each
such field is modelled with that default as its initial value.  The one key
read as bare `state.get("refined_sentence")` — where absence is `None` — is
modelled as `Option String` so that absence and the empty string stay distinct
values (under Python `or` both are falsy). -/
structure GraphState where
  user_id : String := ""
  raw_phrases : List String := []
  normalized_phrases : List String := []
  intent : String := ""
  is_emergency : Bool := false
  draft_sentence : String := ""
  refined_sentence : Option String := none
  rule_status : String := ""
  final_sentence : String := ""
  debug_trace : List TraceEntry := []

/-- Python `a or b` on strings: `a` is falsy iff it is empty. -/
def pyOr (a b : String) : String := if a = "" then b else a

/-- Python `a or b` where `a` is an optional string (a `dict.get` without
default): `None` and `""` are both falsy. -/
def pyOrOpt (a : Option String) (b : String) : String :=
  match a with
  | none => b
  | some s => if s = "" then b else s

/-- Python `str.strip()` with no argument: drop leading and trailing
whitespace.  Defined over the character list so that it computes by kernel
reduction (Lean's own `String.trim` does not). -/
def pyStrip (s : String) : String :=
  ⟨((s.data.dropWhile Char.isWhitespace).reverse.dropWhile
      Char.isWhitespace).reverse⟩

/-- Python `str.upper()` (ASCII case mapping, the only case exercised). -/
def pyUpper (s : String) : String := ⟨s.data.map Char.toUpper⟩

/-- Python `s[:n]`: the first `n` characters. -/
def pyTake (s : String) (n : Nat) : String := ⟨s.data.take n⟩

/-- Python `v in xs` for a list of strings. -/
def pyIn (v : String) : List String → Bool
  | [] => false
  | x :: rest => if x = v then true else pyIn v rest

/-- `d.get(key)` on the dict `json.loads` built for a JSON object (keys
unique, insertion order). -/
def dictGet : List (String × Json) → String → Option Json
  | [], _ => none
  | (k, v) :: rest, key => if k = key then some v else dictGet rest key

/-- `_append_debug` (`nodes.py`): copy `debug_trace`, append one record
`{"step": step, **info}`, store the copy back. -/
def append_debug (state : GraphState) (step : String)
    (info : List (String × TraceVal)) : GraphState :=
  { state with debug_trace := state.debug_trace ++ [⟨step, info⟩] }

/-! ## The eight node functions of `nodes.py` -/

/-- `load_recent_phrases` (node 3-1).  External effects become inputs:
`lrangeRes` is what the `lrange(key, -10, -1)` wrapper call returned (the
wrapper itself lives outside `src/`; `lrange(...) or []` maps a falsy result
to `[]`, so the post-`or` list is taken as the input), `getRes` is what
`redis_client.get(key)` did (`.error` = the read raised), and `jsonLoads`
models `json.loads` on the fetched string (`.error` = raised).  The
`try/except` swallows every error on the fallback path. -/
def load_recent_phrases (state : GraphState) (lrangeRes : List String)
    (getRes : Except Unit (Option String))
    (jsonLoads : String → Except Unit Json) : GraphState :=
  let user_id := state.user_id
  let key := "phrases:" ++ user_id
  let recent0 : List String := lrangeRes
  let recent : List String :=
    if recent0 = [] then
      match getRes with
      | .error _ => recent0
      | .ok none => recent0
      | .ok (some raw_json) =>
          if raw_json = "" then recent0
          else
            match jsonLoads raw_json with
            | .error _ => recent0
            | .ok (.arr data) => data.map pyStr
            | .ok _ => recent0
    else recent0
  let new_state : GraphState := { state with raw_phrases := recent }
  append_debug new_state "load_recent_phrases"
    [("user_id", .s user_id), ("redis_key", .s key),
     ("raw_phrases", .ls recent), ("count", .n recent.length)]

/-- The loop of `normalize_phrases` (node 3-2): `normalized` is the
accumulator; a token is appended iff the accumulator is empty or its last
element differs from the token. -/
def normalize_loop (normalized : List String) : List String → List String
  | [] => normalized
  | token :: rest =>
      if normalized = [] ∨ normalized.getLast? ≠ some token then
        normalize_loop (normalized ++ [token]) rest
      else
        normalize_loop normalized rest

/-- `normalize_phrases` on the phrase list alone: the loop started with an
empty accumulator. -/
def normalize_core (raw : List String) : List String := normalize_loop [] raw

/-- `normalize_phrases` (node 3-2). -/
def normalize_phrases (state : GraphState) : GraphState :=
  let raw := state.raw_phrases
  let normalized := normalize_core raw
  let new_state : GraphState := { state with normalized_phrases := normalized }
  append_debug new_state "normalize_phrases"
    [("raw_phrases", .ls raw), ("normalized_phrases", .ls normalized)]

/-- The f-string prompt of `intent_classifier`. -/
def intent_prompt (phrases : List String) : String :=
  "\n너는 AAC 제스처 문장 시스템의 의도 분류기야.\n아래 입력을 보고 의도를 EMERGENCY, REQUEST, STATUS, OTHER 중 하나로만 결정해.\n\n입력 토큰 리스트: "
    ++ pyListRepr phrases
    ++ "\n\n출력 형식 (JSON 한 줄):\n\x7b\"intent\": \"EMERGENCY\"\x7d\n처럼 intent 키만 포함해서 출력해.\n"

/-- The closed list of valid intent labels checked by `intent_classifier`. -/
def validIntents : List String := ["EMERGENCY", "REQUEST", "STATUS", "OTHER"]

/-- `data.get("intent", "")` on an arbitrary decoded JSON value: on an object
it is the keyed lookup with default `""`; on anything else Python raises
`AttributeError` (then caught by the node). -/
def jsonGetIntent : Json → Except Unit Json
  | .obj kvs => .ok ((dictGet kvs "intent").getD (.str ""))
  | _ => .error ()

/-- `intent_classifier` (node 3-3).  `resp_text` is the provider reply and
`decoded` the outcome of `json.loads(resp_text)` (`.error` = raised). -/
def intent_classifier (state : GraphState) (resp_text : String)
    (decoded : Except Unit Json) : GraphState :=
  let phrases := state.normalized_phrases
  let prompt := intent_prompt phrases
  let tryVal : Except Unit String :=
    match decoded with
    | .error _ => .error ()
    | .ok data =>
        match jsonGetIntent data with
        | .error _ => .error ()
        | .ok v => .ok (pyUpper (pyStr v))
  let res : String × String :=
    match tryVal with
    | .ok val => (if pyIn val validIntents then val else "OTHER", val)
    | .error _ =>
        let val := pyUpper (pyStrip resp_text)
        (if pyIn val validIntents then val else "OTHER", val)
  let intent := res.1
  let parsed_val := res.2
  let new_state : GraphState :=
    { state with intent := intent, is_emergency := intent = "EMERGENCY" }
  append_debug new_state "intent_classifier"
    [("phrases", .ls phrases), ("prompt_preview", .s (pyTake prompt 300)),
     ("raw_response", .s resp_text), ("parsed_intent", .os (some parsed_val)),
     ("final_intent", .s intent), ("is_emergency", .b (intent = "EMERGENCY"))]

/-- The f-string prompt of `emergency_generate`. -/
def emergency_generate_prompt (phrases : List String) : String :=
  "\n너는 응급 상황 AAC 문장을 만들어야 하는 한국어 도우미야.\n\n- 입력은 제스처로 인식된 토큰 리스트다.\n- 이 토큰을 참고해서 긴급 상황을 매우 짧고 분명하게 표현해라.\n- 최대 2문장, 30자 이내.\n- 존댓말을 사용해라.\n\n입력 토큰: "
    ++ pyListRepr phrases
    ++ "\n\n출력: 조건을 만족하는 한글 문장만 출력해.\n"

/-- `emergency_generate` (node 3-4); `chatResp` is the generation provider
reply to the prompt. -/
def emergency_generate (state : GraphState) (chatResp : String) : GraphState :=
  let phrases := state.normalized_phrases
  let prompt := emergency_generate_prompt phrases
  let sentence := pyStrip chatResp
  let new_state : GraphState := { state with draft_sentence := sentence }
  append_debug new_state "emergency_generate"
    [("phrases", .ls phrases), ("prompt_preview", .s (pyTake prompt 300)),
     ("draft_sentence", .s sentence)]

/-- The f-string prompt of `emergency_check`. -/
def emergency_check_prompt (sentence : String) : String :=
  "\n너는 AAC용 긴급 문장을 검수하는 심사관이다.\n\n검수 기준:\n1) 1~2문장인지\n2) 30자 이내인지\n3) 매우 직관적인 긴급 도움 요청인지\n4) 존댓말인지\n\n아래 중 하나만 출력해라:\n- \"OK\"\n- \"REWRITE\"\n\n검수할 문장: \""
    ++ sentence ++ "\"\n"

/-- `emergency_check` (node 3-5); `chatResp` is the verification provider
reply.  The prompt is built exactly as in the source but consumed only by the
external call, which the embedding replaces with its reply. -/
def emergency_check (state : GraphState) (chatResp : String) : GraphState :=
  let sentence := pyOr state.draft_sentence ""
  let _prompt := emergency_check_prompt sentence
  let status := pyStrip chatResp
  let rule_status : String := if status = "OK" then "OK" else "REWRITE"
  let final_sentence :=
    if rule_status = "OK" then sentence else state.final_sentence
  let new_state : GraphState :=
    { state with rule_status := rule_status, final_sentence := final_sentence }
  append_debug new_state "emergency_check"
    [("checked_sentence", .s sentence), ("raw_response", .s status),
     ("rule_status", .s rule_status), ("final_sentence", .s final_sentence)]

/-- The f-string prompt of `normal_generate`. -/
def normal_generate_prompt (phrases : List String) : String :=
  "\n너는 AAC 사용자를 도와주는 문장 생성기다.\n\n- 입력: 제스처로 인식된 토큰 리스트\n- 출력: 일상적인 상황에서 사용할 짧은 문장 1개\n- 존댓말, 1문장, 30자 이내\n- 의미는 최대한 유지하되, 너무 복잡한 표현은 쓰지 마라.\n\n입력 토큰: "
    ++ pyListRepr phrases
    ++ "\n\n출력: 조건을 만족하는 한글 문장만 출력해.\n"

/-- `normal_generate` (node 3-6). -/
def normal_generate (state : GraphState) (chatResp : String) : GraphState :=
  let phrases := state.normalized_phrases
  let prompt := normal_generate_prompt phrases
  let sentence := pyStrip chatResp
  let new_state : GraphState := { state with draft_sentence := sentence }
  append_debug new_state "normal_generate"
    [("phrases", .ls phrases), ("prompt_preview", .s (pyTake prompt 300)),
     ("draft_sentence", .s sentence)]

/-- The f-string prompt of `refine_sentence`. -/
def refine_sentence_prompt (draft : String) : String :=
  "\n너는 AAC 문장을 다듬는 보정기다.\n\n아래 문장을:\n- 더 공손하게\n- 더 단순하게\n- 1문장, 30자 이내\n로 바꿔라.\n\n입력: \""
    ++ draft
    ++ "\"\n\n출력: 조건을 만족하는 한글 문장만 출력해.\n"

/-- `refine_sentence` (node 3-7). -/
def refine_sentence (state : GraphState) (chatResp : String) : GraphState :=
  let draft := pyOr state.draft_sentence ""
  let prompt := refine_sentence_prompt draft
  let refined := pyStrip chatResp
  let new_state : GraphState := { state with refined_sentence := some refined }
  append_debug new_state "refine_sentence"
    [("draft_sentence", .s draft), ("prompt_preview", .s (pyTake prompt 300)),
     ("refined_sentence", .s refined)]

/-- The sentence `normal_check` submits to the verification provider:
`state.get("refined_sentence") or state.get("draft_sentence", "") or ""`. -/
def normal_check_input (state : GraphState) : String :=
  pyOr (pyOrOpt state.refined_sentence state.draft_sentence) ""

/-- The f-string prompt of `normal_check`. -/
def normal_check_prompt (sentence : String) : String :=
  "\n너는 AAC 일상 문장을 검수하는 심사관이다.\n\n기준:\n1) 1~2문장\n2) 40자 이하\n3) 공손한 존댓말\n4) 의미가 명확하고 단순함\n\n아래 중 하나만 출력해라:\n- \"OK\"\n- \"TOO_LONG\"\n- \"NOT_POLITE\"\n- \"UNCLEAR\"\n\n검수할 문장: \""
    ++ sentence ++ "\"\n"

/-- `normal_check` (node 3-8); `chatResp` is the verification provider
reply. -/
def normal_check (state : GraphState) (chatResp : String) : GraphState :=
  let sentence := normal_check_input state
  let _prompt := normal_check_prompt sentence
  let tag := pyStrip chatResp
  let rule_status : String :=
    if pyIn tag ["TOO_LONG", "NOT_POLITE", "UNCLEAR"] then tag else "OK"
  let final_sentence :=
    if rule_status = "OK" then sentence else state.final_sentence
  let new_state : GraphState :=
    { state with rule_status := rule_status, final_sentence := final_sentence }
  append_debug new_state "normal_check"
    [("checked_sentence", .s sentence), ("raw_response", .s tag),
     ("rule_status", .s rule_status), ("final_sentence", .s final_sentence)]

/-! ## The three router functions of `routes.py` -/

/-- `route_intent`. -/
def route_intent (state : GraphState) : String :=
  if state.is_emergency then "emergency_generate" else "normal_generate"

/-- `route_emergency_check`. -/
def route_emergency_check (state : GraphState) : String :=
  if state.rule_status = "OK" then "finish" else "emergency_generate"

/-- `route_normal_check`. -/
def route_normal_check (state : GraphState) : String :=
  if state.rule_status = "OK" then "finish" else "refine_sentence"

/-! ## The run machine (graph wiring) -/

/-- One bundle of external replies consumed by a node invocation: the chat
reply of whichever provider the node calls, and — used only by the intent
classifier — the outcome of `json.loads` on that reply. -/
structure OracleReply where
  chat : String
  decoded : Except Unit Json

/-- Modelled from the spec: the graph assembly (entry point and unconditional
edges) is repository code not under `src/`; spec §2 fixes the control flow —
Phrase Source Adapter → Normalizer → Intent Classifier → Router, emergency
track Generation → Verification → Router picks `finish` or Generation, normal
track Generation → Refinement → Verification → Router picks `finish` or
Refinement.  The conditional edges are exactly the three router functions of
`routes.py`.  The entry node's store reads are fixed to an empty store (the
claims about this machine concern routing and verdicts, not phrase content);
`finish`, and any name no router produces, is absorbing. -/
def graph_step (r : OracleReply) (s : GraphState) (node : String) :
    GraphState × String :=
  if node = "load_recent_phrases" then
    (load_recent_phrases s [] (.ok none) (fun _ => .error ()),
     "normalize_phrases")
  else if node = "normalize_phrases" then
    (normalize_phrases s, "intent_classifier")
  else if node = "intent_classifier" then
    let s2 := intent_classifier s r.chat r.decoded
    (s2, route_intent s2)
  else if node = "emergency_generate" then
    (emergency_generate s r.chat, "emergency_check")
  else if node = "emergency_check" then
    let s2 := emergency_check s r.chat
    (s2, route_emergency_check s2)
  else if node = "normal_generate" then
    (normal_generate s r.chat, "refine_sentence")
  else if node = "refine_sentence" then
    (refine_sentence s r.chat, "normal_check")
  else if node = "normal_check" then
    let s2 := normal_check s r.chat
    (s2, route_normal_check s2)
  else (s, node)

/-- The run: after `k` node invocations, the current state and the name of
the next node.  Invocation `k` consumes the oracle bundle `o k`. -/
def graph_run (o : Nat → OracleReply) (init : GraphState) :
    Nat → GraphState × String
  | 0 => (init, "load_recent_phrases")
  | k + 1 => graph_step (o k) (graph_run o init k).1 (graph_run o init k).2

/-! ## Normalizer lemmas -/

/-- The loop of `normalize_phrases` with a non-empty accumulator is
`List.destutter'` of the inequality relation, shifted past the accumulator. -/
theorem normalize_loop_append (l : List String) :
    ∀ (acc : List String) (a : String),
      normalize_loop (acc ++ [a]) l = acc ++ List.destutter' (· ≠ ·) a l := by
  induction l with
  | nil => intro acc a; simp [normalize_loop, List.destutter'_nil]
  | cons t rest ih =>
      intro acc a
      by_cases hat : a = t
      · subst hat
        have hd : List.destutter' (· ≠ ·) a (a :: rest)
            = List.destutter' (· ≠ ·) a rest :=
          List.destutter'_cons_neg rest (by simp)
        rw [normalize_loop, if_neg (by simp [List.getLast?_concat]),
          ih acc a, hd]
      · have hd : List.destutter' (· ≠ ·) a (t :: rest)
            = a :: List.destutter' (· ≠ ·) t rest :=
          List.destutter'_cons_pos rest hat
        rw [normalize_loop,
          if_pos (Or.inr (by rw [List.getLast?_concat]; simp [hat])),
          ih (acc ++ [a]) t, hd]
        simp

/-- The loop started empty is `List.destutter (· ≠ ·)`: the Python
consecutive-duplicate collapse. -/
theorem normalize_core_eq_destutter (l : List String) :
    normalize_core l = List.destutter (· ≠ ·) l := by
  cases l with
  | nil => rfl
  | cons t rest =>
      show normalize_loop [] (t :: rest) = _
      rw [normalize_loop, if_pos (Or.inl rfl)]
      have h := normalize_loop_append rest [] t
      simpa [List.destutter_cons'] using h

/-! ## Run-machine lemmas -/

/-- A concrete oracle: the classifier call (invocation 2) answers
`"EMERGENCY"` (which raises in `json.loads`, so the fallback parse applies),
and every other call — in particular every emergency verification — answers
`"REWRITE"`.  No verification reply ever trims to `"OK"`. -/
def nonOKOracle : Nat → OracleReply :=
  fun k => ⟨if k = 2 then "EMERGENCY" else "REWRITE", .error ()⟩

/-- The node schedule the run takes under `nonOKOracle`: the three entry
nodes, then the emergency generate/check loop forever. -/
def nonOKNode : Nat → String
  | 0 => "load_recent_phrases"
  | 1 => "normalize_phrases"
  | 2 => "intent_classifier"
  | (k+3) => if (k+3) % 2 = 1 then "emergency_generate" else "emergency_check"

theorem graph_run_nonOKOracle :
    ∀ k, (graph_run nonOKOracle {} k).2 = nonOKNode k := by
  intro k
  induction k with
  | zero => rfl
  | succ k ih =>
      match k, ih with
      | 0, _ => rfl
      | 1, _ => rfl
      | 2, _ => rfl
      | (m+3), ih =>
          rw [graph_run, ih]
          have hr : nonOKOracle (m+3) = ⟨"REWRITE", .error ()⟩ := by
            simp only [nonOKOracle]
            rw [if_neg (by omega)]
          rcases Nat.mod_two_eq_zero_or_one (m+3) with hpar | hpar
          · have hnode : nonOKNode (m+3) = "emergency_check" := by
              show (if (m+3) % 2 = 1 then _ else _) = _
              rw [hpar]; rfl
            have hn4 : nonOKNode (m+3+1) = "emergency_generate" := by
              show (if (m+3+1) % 2 = 1 then _ else _) = _
              rw [if_pos (by omega)]
            rw [hnode, hr, hn4]
            simp [graph_step, emergency_check, append_debug,
              route_emergency_check, show pyStrip "REWRITE" = "REWRITE" from rfl]
          · have hnode : nonOKNode (m+3) = "emergency_generate" := by
              show (if (m+3) % 2 = 1 then _ else _) = _
              rw [hpar]; rfl
            have hn4 : nonOKNode (m+3+1) = "emergency_check" := by
              show (if (m+3+1) % 2 = 1 then _ else _) = _
              rw [if_neg (by omega)]
            rw [hnode, hr, hn4]
            simp [graph_step]

/-- Under `nonOKOracle` the schedule never names the terminal node. -/
theorem nonOKNode_ne_finish : ∀ k, nonOKNode k ≠ "finish" := by
  intro k
  match k with
  | 0 => decide
  | 1 => decide
  | 2 => decide
  | (m+3) =>
      show (if (m+3) % 2 = 1 then "emergency_generate" else "emergency_check") ≠ _
      split <;> decide

/-- The nine node names of the assembled graph. -/
def nodeNames : List String :=
  ["load_recent_phrases", "normalize_phrases", "intent_classifier",
   "emergency_generate", "emergency_check", "normal_generate",
   "refine_sentence", "normal_check", "finish"]

/-- The terminal node is absorbing: the step leaves state and node alone. -/
theorem graph_step_finish (r : OracleReply) (s : GraphState) :
    graph_step r s "finish" = (s, "finish") := by
  simp [graph_step]

/-- Every run position names one of the nine graph nodes. -/
theorem graph_run_node_mem (o : Nat → OracleReply) (init : GraphState) :
    ∀ n, (graph_run o init n).2 ∈ nodeNames := by
  intro n
  induction n with
  | zero => simp [graph_run, nodeNames]
  | succ n ih =>
      rw [graph_run]
      simp only [nodeNames, List.mem_cons, List.not_mem_nil, or_false] at ih
      rcases ih with h | h | h | h | h | h | h | h | h
      · rw [h]; simp [graph_step, nodeNames]
      · rw [h]; simp [graph_step, nodeNames]
      · rw [h]
        simp only [graph_step]
        simp only [show ("intent_classifier" : String) ≠ "load_recent_phrases"
          from by decide, show ("intent_classifier" : String) ≠ "normalize_phrases"
          from by decide, if_neg, if_pos, reduceIte]
        simp [route_intent, nodeNames]
        split <;> simp
      · rw [h]; simp [graph_step, nodeNames]
      · rw [h]
        simp [graph_step, route_emergency_check, nodeNames]
        split <;> simp_all
      · rw [h]; simp [graph_step, nodeNames]
      · rw [h]; simp [graph_step, nodeNames]
      · rw [h]
        simp [graph_step, route_normal_check, nodeNames]
        split <;> simp_all
      · rw [h]; simp [graph_step_finish, nodeNames]

/-- A step at a real (non-terminal) node appends exactly one trace record. -/
theorem graph_step_trace_real (r : OracleReply) (s : GraphState) (node : String)
    (hmem : node ∈ nodeNames) (hne : node ≠ "finish") :
    (graph_step r s node).1.debug_trace.length = s.debug_trace.length + 1 := by
  simp only [nodeNames, List.mem_cons, List.not_mem_nil, or_false] at hmem
  rcases hmem with h | h | h | h | h | h | h | h | h
  · rw [h]; simp [graph_step, load_recent_phrases, append_debug]
  · rw [h]; simp [graph_step, normalize_phrases, append_debug]
  · rw [h]; simp [graph_step, intent_classifier, append_debug]
  · rw [h]; simp [graph_step, emergency_generate, append_debug]
  · rw [h]; simp [graph_step, emergency_check, append_debug]
  · rw [h]; simp [graph_step, normal_generate, append_debug]
  · rw [h]; simp [graph_step, refine_sentence, append_debug]
  · rw [h]; simp [graph_step, normal_check, append_debug]
  · exact absurd h hne

/-- Any step only ever appends to the trace. -/
theorem graph_step_trace_extends (r : OracleReply) (s : GraphState)
    (node : String) :
    ∃ t, (graph_step r s node).1.debug_trace = s.debug_trace ++ t := by
  by_cases h1 : node = "load_recent_phrases"
  · rw [h1]; exact ⟨_, rfl⟩
  by_cases h2 : node = "normalize_phrases"
  · rw [h2]; exact ⟨_, rfl⟩
  by_cases h3 : node = "intent_classifier"
  · rw [h3]; exact ⟨_, rfl⟩
  by_cases h4 : node = "emergency_generate"
  · rw [h4]; exact ⟨_, rfl⟩
  by_cases h5 : node = "emergency_check"
  · rw [h5]; exact ⟨_, rfl⟩
  by_cases h6 : node = "normal_generate"
  · rw [h6]; exact ⟨_, rfl⟩
  by_cases h7 : node = "refine_sentence"
  · rw [h7]; exact ⟨_, rfl⟩
  by_cases h8 : node = "normal_check"
  · rw [h8]; exact ⟨_, rfl⟩
  · exact ⟨[], by simp [graph_step, h1, h2, h3, h4, h5, h6, h7, h8]⟩

/-- As long as the run has not reached the terminal node, the trace after `n`
node invocations holds exactly `n` new records. -/
theorem graph_run_trace_length (o : Nat → OracleReply) (init : GraphState) :
    ∀ n, (graph_run o init n).2 ≠ "finish" →
      (graph_run o init n).1.debug_trace.length
        = init.debug_trace.length + n := by
  intro n
  induction n with
  | zero => intro _; rfl
  | succ n ih =>
      intro hfin
      have hprev : (graph_run o init n).2 ≠ "finish" := by
        intro h
        apply hfin
        rw [graph_run, h, graph_step_finish]
      have hlen := ih hprev
      rw [graph_run,
        graph_step_trace_real _ _ _ (graph_run_node_mem o init n) hprev, hlen]
      omega

/-- A step that lands on the terminal node from a non-terminal node leaves the
state with an `"OK"` rule status: only the two post-verification routers ever
return `"finish"`, and both demand `rule_status == "OK"`. -/
theorem graph_step_finish_requires_ok (r : OracleReply) (s : GraphState)
    (node : String) (hnode : node ≠ "finish")
    (hfin : (graph_step r s node).2 = "finish") :
    (graph_step r s node).1.rule_status = "OK" := by
  by_cases h1 : node = "load_recent_phrases"
  · rw [h1] at hfin; simp [graph_step] at hfin
  by_cases h2 : node = "normalize_phrases"
  · rw [h2] at hfin; simp [graph_step] at hfin
  by_cases h3 : node = "intent_classifier"
  · rw [h3] at hfin
    simp [graph_step, route_intent] at hfin
    split at hfin <;> simp at hfin
  by_cases h4 : node = "emergency_generate"
  · rw [h4] at hfin; simp [graph_step] at hfin
  by_cases h5 : node = "emergency_check"
  · rw [h5] at hfin ⊢
    simp [graph_step, route_emergency_check] at hfin ⊢
    exact hfin
  by_cases h6 : node = "normal_generate"
  · rw [h6] at hfin; simp [graph_step] at hfin
  by_cases h7 : node = "refine_sentence"
  · rw [h7] at hfin; simp [graph_step] at hfin
  by_cases h8 : node = "normal_check"
  · rw [h8] at hfin ⊢
    simp [graph_step, route_normal_check] at hfin ⊢
    exact hfin
  · simp [graph_step, h1, h2, h3, h4, h5, h6, h7, h8] at hfin
    exact absurd hfin hnode

/-! ## Small shared facts -/

/-- Python `x or ""` on a string is the string itself. -/
theorem pyOr_right_empty (a : String) : pyOr a "" = a := by
  unfold pyOr; split <;> simp_all

/-- `pyIn` decides list membership. -/
theorem pyIn_eq_true (v : String) (xs : List String) :
    pyIn v xs = true ↔ v ∈ xs := by
  induction xs with
  | nil => simp [pyIn]
  | cons x rest ih =>
      by_cases h : x = v
      · simp [pyIn, h]
      · have h2 : ¬v = x := fun hv => h hv.symm
        simp [pyIn, h, ih, h2]

/-- Whatever label the classifier picked is a member of the closed intent
enumeration. -/
theorem intent_pick_mem (v : String) :
    (if pyIn v validIntents = true then v else "OTHER") ∈ validIntents := by
  split
  · exact (pyIn_eq_true _ _).mp (by assumption)
  · simp [validIntents]

/-- A reply the normal check recognises as negative is one of the three tags,
hence never the accepting token. -/
theorem pyIn_neg_ne_ok (t : String)
    (h : pyIn t ["TOO_LONG", "NOT_POLITE", "UNCLEAR"] = true) : t ≠ "OK" := by
  have hmem := (pyIn_eq_true _ _).mp h
  simp only [List.mem_cons, List.not_mem_nil, or_false] at hmem
  rcases hmem with h | h | h <;> rw [h] <;> decide

/-! ## Claim theorems -/

/-- C1: stickiness of `final_sentence`.  For every input state and provider
reply, if a verification step (`emergency_check` or `normal_check`) leaves
`rule_status ≠ "OK"` then it leaves `final_sentence` exactly as it was; if it
leaves `rule_status = "OK"` then `final_sentence` becomes the checked sentence
(the draft for the emergency track, the refined-or-draft selection for the
normal track).  No step clears a previously set value. -/
theorem C1_final_sentence_sticky (s : GraphState) (resp : String) :
    ((emergency_check s resp).rule_status ≠ "OK" →
        (emergency_check s resp).final_sentence = s.final_sentence) ∧
    ((emergency_check s resp).rule_status = "OK" →
        (emergency_check s resp).final_sentence = s.draft_sentence) ∧
    ((normal_check s resp).rule_status ≠ "OK" →
        (normal_check s resp).final_sentence = s.final_sentence) ∧
    ((normal_check s resp).rule_status = "OK" →
        (normal_check s resp).final_sentence = normal_check_input s) := by
  refine ⟨?_, ?_, ?_, ?_⟩
  · intro hne
    by_cases hc : pyStrip resp = "OK"
    · exact absurd (by simp [emergency_check, append_debug, hc]) hne
    · simp [emergency_check, append_debug, hc]
  · intro hok
    by_cases hc : pyStrip resp = "OK"
    · simp [emergency_check, append_debug, hc, pyOr_right_empty]
    · exact absurd hok (by simp [emergency_check, append_debug, hc])
  · intro hne
    by_cases hc : pyIn (pyStrip resp) ["TOO_LONG", "NOT_POLITE", "UNCLEAR"] = true
    · have htag := pyIn_neg_ne_ok _ hc
      simp [normal_check, append_debug, hc, htag]
    · exact absurd (by simp [normal_check, append_debug, hc]) hne
  · intro hok
    by_cases hc : pyIn (pyStrip resp) ["TOO_LONG", "NOT_POLITE", "UNCLEAR"] = true
    · have htag := pyIn_neg_ne_ok _ hc
      exact absurd (by simpa [normal_check, append_debug, hc] using hok) htag
    · simp [normal_check, append_debug, hc]

/-- State used to witness C1. -/
def exC1 : GraphState := { draft_sentence := "draft now", final_sentence := "kept before" }

/-- C1 witness: concrete negative and positive verdicts on both tracks. -/
theorem C1_final_sentence_sticky_witness :
    ((emergency_check exC1 "REWRITE").rule_status ≠ "OK" ∧
      (emergency_check exC1 "REWRITE").final_sentence = "kept before") ∧
    ((emergency_check exC1 "OK").rule_status = "OK" ∧
      (emergency_check exC1 "OK").final_sentence = "draft now") ∧
    ((normal_check exC1 "TOO_LONG").rule_status ≠ "OK" ∧
      (normal_check exC1 "TOO_LONG").final_sentence = "kept before") ∧
    ((normal_check exC1 "sounds good").rule_status = "OK" ∧
      (normal_check exC1 "sounds good").final_sentence = "draft now") :=
  ⟨⟨by decide, (C1_final_sentence_sticky exC1 "REWRITE").1 (by decide)⟩,
   ⟨by decide, (C1_final_sentence_sticky exC1 "OK").2.1 (by decide)⟩,
   ⟨by decide, (C1_final_sentence_sticky exC1 "TOO_LONG").2.2.1 (by decide)⟩,
   ⟨by decide,
    ((C1_final_sentence_sticky exC1 "sounds good").2.2.2 (by decide)).trans rfl⟩⟩

/-- An oracle whose every reply is the accepting token (the classifier call
falls back on `"OK"`, an invalid label, hence the normal track). -/
def okOracle : Nat → OracleReply := fun _ => ⟨"OK", .error ()⟩

/-- C2: unbounded retry cycle.  (1) Whenever the run first reaches the
terminal `"finish"` node, the state's `rule_status` is `"OK"` — the only
edges into `"finish"` are the two post-verification routers, and both demand
it.  (2) `nonOKOracle` issues no reply that trims to the accepting token, yet
(3) under it the run is at a non-terminal node after every number of node
invocations: with no retry counter in the state or routers, a run whose
verifications never return OK never reaches `"finish"`. -/
theorem C2_unbounded_retry :
    (∀ (o : Nat → OracleReply) (init : GraphState) (k : Nat),
        (graph_run o init (k + 1)).2 = "finish" →
        (graph_run o init k).2 ≠ "finish" →
        (graph_run o init (k + 1)).1.rule_status = "OK") ∧
    (∀ k, pyStrip (nonOKOracle k).chat ≠ "OK") ∧
    (∀ n, (graph_run nonOKOracle {} n).2 ≠ "finish") := by
  refine ⟨?_, ?_, ?_⟩
  · intro o init k hfin hprev
    rw [graph_run] at hfin ⊢
    exact graph_step_finish_requires_ok _ _ _ hprev hfin
  · intro k
    simp only [nonOKOracle]
    split <;> decide
  · intro n
    rw [graph_run_nonOKOracle]
    exact nonOKNode_ne_finish n

/-- C2 witness: under the all-`"OK"` oracle the run does reach `"finish"`
(at invocation 6, via the normal track), and the theorem applies there. -/
theorem C2_unbounded_retry_witness :
    (graph_run okOracle {} 6).2 = "finish" ∧
    (graph_run okOracle {} 5).2 ≠ "finish" ∧
    (graph_run okOracle {} 6).1.rule_status = "OK" :=
  ⟨by decide, by decide,
   C2_unbounded_retry.1 okOracle {} 5 (by decide) (by decide)⟩

/-- C3: the router decision table.  `route_intent` picks the emergency
generator exactly on `is_emergency`; both post-verification routers return
`"finish"` exactly on `rule_status == "OK"`; otherwise the emergency router
regenerates and the normal router refines — the normal router can never
return `"normal_generate"`. -/
theorem C3_router_table (s : GraphState) :
    (s.is_emergency = true → route_intent s = "emergency_generate") ∧
    (s.is_emergency = false → route_intent s = "normal_generate") ∧
    (s.rule_status = "OK" →
        route_emergency_check s = "finish" ∧ route_normal_check s = "finish") ∧
    (s.rule_status ≠ "OK" →
        route_emergency_check s = "emergency_generate" ∧
        route_normal_check s = "refine_sentence") ∧
    route_normal_check s ≠ "normal_generate" := by
  refine ⟨?_, ?_, ?_, ?_, ?_⟩
  · intro h; simp [route_intent, h]
  · intro h; simp [route_intent, h]
  · intro h; simp [route_emergency_check, route_normal_check, h]
  · intro h; simp [route_emergency_check, route_normal_check, h]
  · unfold route_normal_check; split <;> decide

/-- State used to witness C3 (emergency, accepted). -/
def exC3e : GraphState := { is_emergency := true, rule_status := "OK" }

/-- State used to witness C3 (normal, rejected as too long). -/
def exC3n : GraphState := { rule_status := "TOO_LONG" }

/-- C3 witness: the table evaluated on both concrete states. -/
theorem C3_router_table_witness :
    route_intent exC3e = "emergency_generate" ∧
    route_intent exC3n = "normal_generate" ∧
    route_emergency_check exC3e = "finish" ∧
    route_normal_check exC3e = "finish" ∧
    route_emergency_check exC3n = "emergency_generate" ∧
    route_normal_check exC3n = "refine_sentence" :=
  ⟨(C3_router_table exC3e).1 rfl,
   (C3_router_table exC3n).2.1 rfl,
   ((C3_router_table exC3e).2.2.1 rfl).1,
   ((C3_router_table exC3e).2.2.1 rfl).2,
   ((C3_router_table exC3n).2.2.2.1 (by decide)).1,
   ((C3_router_table exC3n).2.2.2.1 (by decide)).2⟩

/-- C4: `normal_check` coerces every reply that, after trimming, is not
exactly one of the three negative tags — empty, `"REWRITE"`, lowercase
`"ok"`, arbitrary garbage — to `rule_status = "OK"`, which promotes the
checked sentence to `final_sentence` and makes the router end the run; only
an exact negative tag triggers the refinement retry. -/
theorem C4_normal_check_coercion (s : GraphState) (resp : String) :
    (pyIn (pyStrip resp) ["TOO_LONG", "NOT_POLITE", "UNCLEAR"] = false →
        (normal_check s resp).rule_status = "OK" ∧
        (normal_check s resp).final_sentence = normal_check_input s ∧
        route_normal_check (normal_check s resp) = "finish") ∧
    (pyIn (pyStrip resp) ["TOO_LONG", "NOT_POLITE", "UNCLEAR"] = true →
        (normal_check s resp).rule_status = pyStrip resp ∧
        route_normal_check (normal_check s resp) = "refine_sentence") := by
  constructor
  · intro hc
    refine ⟨?_, ?_, ?_⟩ <;>
      simp [normal_check, append_debug, route_normal_check, hc]
  · intro hc
    have htag := pyIn_neg_ne_ok _ hc
    constructor <;>
      simp [normal_check, append_debug, route_normal_check, hc, htag]

/-- C4 witness: the coercion on four concrete non-tag replies and one exact
negative tag. -/
theorem C4_normal_check_coercion_witness :
    ((normal_check {} "").rule_status = "OK" ∧
      route_normal_check (normal_check {} "") = "finish") ∧
    (normal_check {} "REWRITE").rule_status = "OK" ∧
    (normal_check {} "ok").rule_status = "OK" ∧
    (normal_check {} "?? unparseable ??").rule_status = "OK" ∧
    ((normal_check {} " TOO_LONG ").rule_status = "TOO_LONG" ∧
      route_normal_check (normal_check {} " TOO_LONG ") = "refine_sentence") :=
  ⟨⟨((C4_normal_check_coercion {} "").1 (by decide)).1,
    ((C4_normal_check_coercion {} "").1 (by decide)).2.2⟩,
   ((C4_normal_check_coercion {} "REWRITE").1 (by decide)).1,
   ((C4_normal_check_coercion {} "ok").1 (by decide)).1,
   ((C4_normal_check_coercion {} "?? unparseable ??").1 (by decide)).1,
   ⟨(((C4_normal_check_coercion {} " TOO_LONG ").2 (by decide)).1).trans rfl,
    ((C4_normal_check_coercion {} " TOO_LONG ").2 (by decide)).2⟩⟩

/-- C5: normalizer postcondition.  The produced `normalized_phrases` is never
longer than `raw_phrases`, has no two equal adjacent tokens, is an
order-preserving subsequence of the input, and the empty input yields the
empty output. -/
theorem C5_normalizer_postcondition (s : GraphState) :
    (normalize_phrases s).normalized_phrases.length ≤ s.raw_phrases.length ∧
    List.Chain' (· ≠ ·) (normalize_phrases s).normalized_phrases ∧
    (normalize_phrases s).normalized_phrases.Sublist s.raw_phrases ∧
    (s.raw_phrases = [] → (normalize_phrases s).normalized_phrases = []) := by
  have himg : (normalize_phrases s).normalized_phrases
      = normalize_core s.raw_phrases := rfl
  refine ⟨?_, ?_, ?_, ?_⟩
  · rw [himg, normalize_core_eq_destutter]
    exact (List.destutter_sublist _ _).length_le
  · rw [himg, normalize_core_eq_destutter]
    exact List.destutter_is_chain' _ _
  · rw [himg, normalize_core_eq_destutter]
    exact List.destutter_sublist _ _
  · intro h; rw [himg, h]; rfl

/-- C5 witness: the empty-input clause at the default state. -/
theorem C5_normalizer_postcondition_witness :
    ({} : GraphState).raw_phrases = [] ∧
    (normalize_phrases {}).normalized_phrases = [] :=
  ⟨rfl, (C5_normalizer_postcondition {}).2.2.2 rfl⟩

/-- C6: intent-classifier defaulting.  The resulting intent is always a
member of the closed enumeration; when `json.loads` raises, the uppercased
trimmed raw text is validated instead; and on the three replies the spec
lists — `{"intent":"EMERGENCY"}` (decoding to that object), bare
`emergency` (not valid JSON), and `{"intent":"BOGUS"}` — the intents are
EMERGENCY, EMERGENCY and OTHER. -/
theorem C6_intent_classifier_defaulting :
    (∀ (s : GraphState) (resp : String) (decoded : Except Unit Json),
        (intent_classifier s resp decoded).intent ∈ validIntents) ∧
    (∀ (s : GraphState) (resp : String),
        (intent_classifier s resp (.error ())).intent
          = if pyIn (pyUpper (pyStrip resp)) validIntents = true
              then pyUpper (pyStrip resp) else "OTHER") ∧
    (∀ s : GraphState,
        (intent_classifier s "\x7b\"intent\":\"EMERGENCY\"\x7d"
            (.ok (.obj [("intent", .str "EMERGENCY")]))).intent
          = "EMERGENCY") ∧
    (∀ s : GraphState,
        (intent_classifier s "emergency" (.error ())).intent = "EMERGENCY") ∧
    (∀ s : GraphState,
        (intent_classifier s "\x7b\"intent\":\"BOGUS\"\x7d"
            (.ok (.obj [("intent", .str "BOGUS")]))).intent = "OTHER") := by
  refine ⟨?_, ?_, fun s => rfl, fun s => rfl, fun s => rfl⟩
  · intro s resp decoded
    rcases decoded with e | data
    · simp only [intent_classifier, append_debug]
      exact intent_pick_mem _
    · rcases data with _ | b | n | st | xs | kvs <;>
        · simp only [intent_classifier, append_debug, jsonGetIntent]
          exact intent_pick_mem _
  · intro s resp
    rfl

/-- C7 (amended): `load_recent_phrases` always returns normally.  The primary
list read is used verbatim when non-empty; otherwise the result is either the
full decoded token sequence of the JSON fallback, every element coerced to
string, or the empty sequence; a raising store read, or a fallback whose
decode raises, yields the empty sequence — no failure propagates.  (The
fallback path applies no 10-element cap; see the counterexample.) -/
theorem C7_load_recent_phrases_total (s : GraphState) (lr : List String)
    (gr : Except Unit (Option String)) (jl : String → Except Unit Json) :
    (lr ≠ [] → (load_recent_phrases s lr gr jl).raw_phrases = lr) ∧
    ((load_recent_phrases s lr gr jl).raw_phrases = lr ∨
      (load_recent_phrases s lr gr jl).raw_phrases = [] ∨
      ∃ raw data, gr = .ok (some raw) ∧ jl raw = .ok (.arr data) ∧
        (load_recent_phrases s lr gr jl).raw_phrases = data.map pyStr) ∧
    (gr = .error () → lr = [] →
      (load_recent_phrases s lr gr jl).raw_phrases = []) ∧
    ((∀ raw, jl raw = .error ()) → lr = [] →
      (load_recent_phrases s lr gr jl).raw_phrases = []) := by
  refine ⟨?_, ?_, ?_, ?_⟩
  · intro h; simp [load_recent_phrases, append_debug, h]
  · by_cases hlr : lr = []
    · subst hlr
      rcases gr with e | og
      · right; left; simp [load_recent_phrases, append_debug]
      · rcases og with _ | raw
        · right; left; simp [load_recent_phrases, append_debug]
        · by_cases hraw : raw = ""
          · right; left; simp [load_recent_phrases, append_debug, hraw]
          · rcases hjl : jl raw with e | j
            · right; left
              simp [load_recent_phrases, append_debug, hraw, hjl]
            · rcases j with _ | b | n | st | data | kvs
              · right; left
                simp [load_recent_phrases, append_debug, hraw, hjl]
              · right; left
                simp [load_recent_phrases, append_debug, hraw, hjl]
              · right; left
                simp [load_recent_phrases, append_debug, hraw, hjl]
              · right; left
                simp [load_recent_phrases, append_debug, hraw, hjl]
              · right; right
                exact ⟨raw, data, rfl, hjl,
                  by simp [load_recent_phrases, append_debug, hraw, hjl]⟩
              · right; left
                simp [load_recent_phrases, append_debug, hraw, hjl]
    · left; simp [load_recent_phrases, append_debug, hlr]
  · intro hgr hlr
    subst hlr
    rw [hgr]
    simp [load_recent_phrases, append_debug]
  · intro hjl hlr
    subst hlr
    rcases gr with e | og
    · simp [load_recent_phrases, append_debug]
    · rcases og with _ | raw
      · simp [load_recent_phrases, append_debug]
      · by_cases hraw : raw = ""
        · simp [load_recent_phrases, append_debug, hraw]
        · simp [load_recent_phrases, append_debug, hraw, hjl raw]

/-- The JSON text of an 11-element array of `"a"` tokens, and the decode
`json.loads` performs on it. -/
def json11String : String :=
  "[\"a\",\"a\",\"a\",\"a\",\"a\",\"a\",\"a\",\"a\",\"a\",\"a\",\"a\"]"

/-- The decode `json.loads` performs on `json11String`. -/
def jsonLoads11 : String → Except Unit Json :=
  fun _ => .ok (.arr (List.replicate 11 (.str "a")))

/-- C7 counterexample: on an empty primary read and an 11-token JSON fallback
payload, `raw_phrases` gets all 11 decoded tokens — more than "at most the 10
most recent": the fallback path never truncates. -/
theorem C7_counterexample :
    (load_recent_phrases {} [] (.ok (some json11String))
        jsonLoads11).raw_phrases.length = 11 ∧
    ¬ (load_recent_phrases {} [] (.ok (some json11String))
        jsonLoads11).raw_phrases.length ≤ 10 := by
  exact ⟨by decide, by decide⟩

/-- C7 witness: the amended theorem applied at a non-empty primary read and
at a raising store read. -/
theorem C7_load_recent_phrases_total_witness :
    (["hi"] : List String) ≠ [] ∧
    (load_recent_phrases {} ["hi"] (.error ())
        (fun _ => .error ())).raw_phrases = ["hi"] ∧
    (load_recent_phrases {} [] (.error ())
        (fun _ => .error ())).raw_phrases = [] :=
  ⟨by decide,
   (C7_load_recent_phrases_total {} ["hi"] (.error ())
      (fun _ => .error ())).1 (by decide),
   (C7_load_recent_phrases_total {} [] (.error ())
      (fun _ => .error ())).2.2.1 rfl rfl⟩

/-- C8: trace growth.  Every node invocation — including the ones that fall
back to defaults internally — appends exactly one `{step, ...}` record to
`debug_trace`, preserving all prior entries unchanged and in order; along the
assembled graph the trace only ever grows by appending, and as long as the
terminal node has not been reached, after `N` node invocations it holds
exactly `N` new entries. -/
theorem C8_trace_growth :
    (∀ (s : GraphState) (lr : List String) (gr : Except Unit (Option String))
        (jl : String → Except Unit Json), ∃ e : TraceEntry,
        (load_recent_phrases s lr gr jl).debug_trace = s.debug_trace ++ [e] ∧
        e.step = "load_recent_phrases") ∧
    (∀ s : GraphState, ∃ e : TraceEntry,
        (normalize_phrases s).debug_trace = s.debug_trace ++ [e] ∧
        e.step = "normalize_phrases") ∧
    (∀ (s : GraphState) (r : String) (d : Except Unit Json), ∃ e : TraceEntry,
        (intent_classifier s r d).debug_trace = s.debug_trace ++ [e] ∧
        e.step = "intent_classifier") ∧
    (∀ (s : GraphState) (r : String), ∃ e : TraceEntry,
        (emergency_generate s r).debug_trace = s.debug_trace ++ [e] ∧
        e.step = "emergency_generate") ∧
    (∀ (s : GraphState) (r : String), ∃ e : TraceEntry,
        (emergency_check s r).debug_trace = s.debug_trace ++ [e] ∧
        e.step = "emergency_check") ∧
    (∀ (s : GraphState) (r : String), ∃ e : TraceEntry,
        (normal_generate s r).debug_trace = s.debug_trace ++ [e] ∧
        e.step = "normal_generate") ∧
    (∀ (s : GraphState) (r : String), ∃ e : TraceEntry,
        (refine_sentence s r).debug_trace = s.debug_trace ++ [e] ∧
        e.step = "refine_sentence") ∧
    (∀ (s : GraphState) (r : String), ∃ e : TraceEntry,
        (normal_check s r).debug_trace = s.debug_trace ++ [e] ∧
        e.step = "normal_check") ∧
    (∀ (o : Nat → OracleReply) (init : GraphState) (n : Nat), ∃ t,
        (graph_run o init n).1.debug_trace = init.debug_trace ++ t) ∧
    (∀ (o : Nat → OracleReply) (init : GraphState) (n : Nat),
        (graph_run o init n).2 ≠ "finish" →
        (graph_run o init n).1.debug_trace.length
          = init.debug_trace.length + n) := by
  refine ⟨fun s lr gr jl => ⟨_, rfl, rfl⟩, fun s => ⟨_, rfl, rfl⟩,
    fun s r d => ⟨_, rfl, rfl⟩, fun s r => ⟨_, rfl, rfl⟩,
    fun s r => ⟨_, rfl, rfl⟩, fun s r => ⟨_, rfl, rfl⟩,
    fun s r => ⟨_, rfl, rfl⟩, fun s r => ⟨_, rfl, rfl⟩, ?_, ?_⟩
  · intro o init n
    induction n with
    | zero => exact ⟨[], by simp [graph_run]⟩
    | succ n ih =>
        rcases ih with ⟨t, ht⟩
        rcases graph_step_trace_extends (o n) (graph_run o init n).1
          (graph_run o init n).2 with ⟨u, hu⟩
        exact ⟨t ++ u, by rw [graph_run, hu, ht, List.append_assoc]⟩
  · exact fun o init n h => graph_run_trace_length o init n h

/-- C8 witness: seven invocations of the never-accepting run leave exactly
seven trace records. -/
theorem C8_trace_growth_witness :
    (graph_run nonOKOracle {} 7).2 ≠ "finish" ∧
    (graph_run nonOKOracle {} 7).1.debug_trace.length = 7 :=
  ⟨by decide,
   (C8_trace_growth.2.2.2.2.2.2.2.2.2 nonOKOracle {} 7 (by decide)).trans rfl⟩

/-- State refuting C9 as stated: `refined_sentence` is present but empty. -/
def exC9 : GraphState :=
  { draft_sentence := "please help", refined_sentence := some "" }

/-- C9 counterexample: with `refined_sentence` present in the state (but
equal to `""`), `normal_check` submits and promotes the draft, not the
present `refined_sentence` — presence alone does not select it. -/
theorem C9_counterexample :
    exC9.refined_sentence.isSome = true ∧
    normal_check_input exC9 ≠ "" ∧
    normal_check_input exC9 = exC9.draft_sentence ∧
    (normal_check exC9 "OK").final_sentence = "please help" :=
  ⟨rfl, by decide, rfl, by decide⟩

/-- C9 (amended): the sentence `normal_check` submits (and, on acceptance,
promotes to `final_sentence`) is `refined_sentence` whenever that field is
present **and non-empty**, and `draft_sentence` otherwise — the selection is
Python truthiness, so a present-but-empty refined sentence falls through;
`emergency_check` always submits `draft_sentence`. -/
theorem C9_verification_input (s : GraphState) :
    (∀ r : String, s.refined_sentence = some r → r ≠ "" →
        normal_check_input s = r) ∧
    (s.refined_sentence = none →
        normal_check_input s = s.draft_sentence) ∧
    (s.refined_sentence = some "" →
        normal_check_input s = s.draft_sentence) ∧
    (∀ resp : String, (normal_check s resp).rule_status = "OK" →
        (normal_check s resp).final_sentence = normal_check_input s) ∧
    (∀ resp : String, (emergency_check s resp).rule_status = "OK" →
        (emergency_check s resp).final_sentence = s.draft_sentence) := by
  refine ⟨?_, ?_, ?_, ?_, ?_⟩
  · intro r hr hne
    simp [normal_check_input, pyOrOpt, pyOr, hr, hne]
  · intro hr
    unfold normal_check_input
    rw [hr]
    exact pyOr_right_empty _
  · intro hr
    unfold normal_check_input
    rw [hr]
    exact pyOr_right_empty _
  · intro resp hok
    by_cases hc : pyIn (pyStrip resp) ["TOO_LONG", "NOT_POLITE", "UNCLEAR"] = true
    · have htag := pyIn_neg_ne_ok _ hc
      exact absurd (by simpa [normal_check, append_debug, hc] using hok) htag
    · simp [normal_check, append_debug, hc]
  · intro resp hok
    by_cases hc : pyStrip resp = "OK"
    · simp [emergency_check, append_debug, hc, pyOr_right_empty]
    · exact absurd hok (by simp [emergency_check, append_debug, hc])

/-- State used to witness C9: a present, non-empty refined sentence. -/
def exC9w : GraphState :=
  { draft_sentence := "draft text", refined_sentence := some "refined text" }

/-- C9 witness: the amended selection at a present non-empty refinement. -/
theorem C9_verification_input_witness :
    exC9w.refined_sentence = some "refined text" ∧
    normal_check_input exC9w = "refined text" ∧
    (normal_check exC9w "OK").rule_status = "OK" ∧
    (normal_check exC9w "OK").final_sentence = "refined text" :=
  ⟨rfl,
   (C9_verification_input exC9w).1 "refined text" rfl (by decide),
   by decide,
   ((C9_verification_input exC9w).2.2.2.1 "OK" (by decide)).trans
     ((C9_verification_input exC9w).1 "refined text" rfl (by decide))⟩

/-- C10: normalizer idempotence.  On any already-normalized sequence (no two
adjacent tokens equal) the collapse returns the sequence unchanged, the
collapse composed with itself equals the collapse, and the node computes
exactly that collapse of `raw_phrases`. -/
theorem C10_normalize_idempotent :
    (∀ l : List String, List.Chain' (· ≠ ·) l → normalize_core l = l) ∧
    (∀ l : List String, normalize_core (normalize_core l) = normalize_core l) ∧
    (∀ s : GraphState,
        (normalize_phrases s).normalized_phrases
          = normalize_core s.raw_phrases) := by
  refine ⟨?_, ?_, fun s => rfl⟩
  · intro l hl
    rw [normalize_core_eq_destutter]
    exact List.destutter_of_chain' _ _ hl
  · intro l
    simp only [normalize_core_eq_destutter]
    exact List.destutter_idem _ _

/-- C10 witness: an already-normalized concrete sequence (with a
non-consecutive duplicate, which must be preserved). -/
theorem C10_normalize_idempotent_witness :
    List.Chain' (· ≠ ·) ["help", "fire", "help"] ∧
    normalize_core ["help", "fire", "help"] = ["help", "fire", "help"] := by
  have hch : List.Chain' (· ≠ ·) ["help", "fire", "help"] := by
    simp [List.chain'_cons]
  exact ⟨hch, C10_normalize_idempotent.1 _ hch⟩
